import Mathlib

/-!
Verification of the startup gate of `bin/sl-pm.js` (strong-pm).

The source is a single Node.js script. We embed it shallowly:

* The `posix-getopt` parse loop (lines 63-102) consumes a list of parsed
  option tokens (`OptTok`); each constructor corresponds to one `case` of the
  `switch`, and `OptTok.unknown` to the `default` case. The parser itself is
  an external library; whether leftover positional arguments remain after
  parsing (`parser.optind() !== argv.length`, line 106) is passed in as a
  boolean.
* Filesystem state is the list of existing paths; `fs.stat` succeeding means
  the probed path is in the list.
* The migration routine `upgradeDb` (external collaborator, line 4/214) is an
  oracle input: `none` = success, `some msg` = failure with message `msg`.
* The single `listening` event from the `Server` collaborator is an oracle
  input: `none` = the event never fires, `some port` = it fires carrying a
  listen address with that port.
* All observable actions (diagnostics via `g.error`/`g.log`, `mkdirp`,
  `process.chdir`, `fs.stat`, `upgradeDb`, `new Server`, `app.start`) are
  recorded in an event trace, and the process outcome is `exit code` or
  `running` (the event loop stays alive).
* JavaScript values held by the mutable CLI variables are modelled by `JsVal`
  (number, string, or null); `listen == null` is the only loose-equality test
  and only `null` is nullish here (the variables are never `undefined`).
* `path.resolve` is modelled as prefixing the working directory to relative
  paths (no `.`/`..` normalization; no claim depends on normalization), and
  `path.join` as separator concatenation.
* `String.prototype.toLowerCase` is modelled by ASCII case folding over the
  character list (`toLowerCase`).
* `DRIVERS[key]` is full JavaScript bracket lookup: the literal's own keys
  shadow, but do not remove, the properties inherited from
  `Object.prototype`, so keys such as `"constructor"` yield defined values.
* `Number(process.env.STRONGLOOP_BASEPORT) || 3000` (line 58) is modelled for
  decimal numerals: an unset, non-numeric or zero value yields 3000.
-/

namespace StrongPm

/-- JavaScript values that the script's mutable CLI variables can hold. -/
inductive JsVal
  | num (n : Int)
  | str (s : String)
  | null
deriving DecidableEq, Repr

/-- Loose-equality test `x == null` as applied to the script's variables
(which are never `undefined`). -/
def jsIsNullish : JsVal → Bool
  | .null => true
  | _ => false

/-- The two driver implementations required at lines 23-26. -/
inductive Driver
  | direct
  | docker
deriving DecidableEq, Repr

/-- A value the `driver` variable can hold: one of the two registered driver
implementations, a function or object inherited from `Object.prototype`
(JavaScript bracket lookup traverses the prototype chain of the `DRIVERS`
object literal), or `undefined`. -/
inductive DriverVal
  | impl (d : Driver)
  | protoMember (name : String)
  | undefined
deriving DecidableEq, Repr

/-- The own property names of `Object.prototype` (ECMAScript), inherited by
every object literal such as `DRIVERS`. -/
def objectProtoKeys : List String :=
  ["constructor", "hasOwnProperty", "isPrototypeOf", "propertyIsEnumerable",
   "toLocaleString", "toString", "valueOf", "__proto__",
   "__defineGetter__", "__defineSetter__", "__lookupGetter__",
   "__lookupSetter__"]

/-- Whether a key names an `Object.prototype` member. -/
def isObjectProtoKey (key : String) : Bool :=
  objectProtoKeys.any fun k => decide (key = k)

/-- Bracket lookup `DRIVERS[key]` (lines 23-26, 81): the own properties
`direct` and `docker` first, then the properties the object literal inherits
from `Object.prototype`, and `undefined` otherwise. -/
def driversLookup (key : String) : DriverVal :=
  if key = "direct" then .impl Driver.direct
  else if key = "docker" then .impl Driver.docker
  else if isObjectProtoKey key then .protoMember key
  else .undefined

/-- Model of `String.prototype.toLowerCase` (ASCII case folding). -/
def toLowerCase (s : String) : String :=
  String.mk (s.data.map Char.toLower)

/-- The expression `DRIVERS[option.optarg.toLowerCase()]` of line 81. -/
def driverOfArg (optarg : String) : DriverVal :=
  driversLookup (toLowerCase optarg)

/-- Process environment and process-level constants read by the script. -/
structure Env where
  /-- `process.env.CMD` (line 39). -/
  cmdEnv : Option String
  /-- `path.basename(argv[1])` (line 39). -/
  argv1Base : String
  /-- `home('.strong-pm')` (line 55). -/
  homeDir : String
  /-- `process.env.STRONGLOOP_BASEPORT` (line 58). -/
  basePortEnv : Option String
  /-- `process.env.STRONGLOOP_MESH_DB` (line 210). -/
  meshDbEnv : Option String
  /-- Working directory at startup, used by `path.resolve` (line 104). -/
  cwd : String
  /-- `process.pid`. -/
  pid : Nat
  /-- `require('../package.json').version` (line 21). -/
  versionPm : String
  /-- `require('strong-mesh-models/package.json').apiVersion` (line 20). -/
  versionApi : String
deriving DecidableEq, Repr

/-- Model of `Number(process.env.STRONGLOOP_BASEPORT) || 3000` (line 58) for
decimal numerals: unset (NaN), non-numeric (NaN) and `"0"` (falsy) give 3000. -/
def basePortFromEnv : Option String → JsVal
  | none => .num 3000
  | some s =>
    match s.toNat? with
    | some n => if n = 0 then .num 3000 else .num (Int.ofNat n)
    | none => .num 3000

/-- Model of Node `path.resolve` (line 104): absolute paths (leading slash)
unchanged, relative paths prefixed with the working directory (no dot
normalization). -/
def pathResolve (cwd p : String) : String :=
  if p.data.head? = some (Char.ofNat 47) then p else cwd ++ "/" ++ p

/-- Model of Node `path.join` of two segments (lines 129, 211). -/
def pathJoin (a b : String) : String :=
  a ++ "/" ++ b

/-- The mutable configuration variables of lines 55-59. -/
structure St where
  /-- `base` (line 55). -/
  base : String
  /-- `listen` (line 56). -/
  listen : JsVal
  /-- `driver` (line 57): a registered implementation, an `Object.prototype`
  member picked up by bracket lookup, or `undefined`. -/
  driver : DriverVal
  /-- `basePort` (line 58). -/
  basePort : JsVal
  /-- `dbDriver` (line 59). -/
  dbDriver : String
deriving DecidableEq, Repr

/-- Initial values of the configuration variables (lines 55-59). -/
def initSt (env : Env) : St :=
  { base := env.homeDir
    listen := .num 8701
    driver := .impl Driver.direct
    basePort := basePortFromEnv env.basePortEnv
    dbDriver := "sqlite3" }

/-- The `$0` display name: `process.env.CMD` if set, else the basename of
`argv[1]` (line 39). -/
def cmdName (env : Env) : String :=
  env.cmdEnv.getD env.argv1Base

/-- One option record yielded by the `posix-getopt` parser, as consumed by the
`switch` of lines 65-101. `unknown` carries `option.optopt`, the name of the
offending option, and covers the parser's unrecognized-option and
missing-argument reports (both reach the `default` case). -/
inductive OptTok
  | v
  | h
  | b (optarg : String)
  | c (optarg : String)
  | d (optarg : String)
  | l (optarg : String)
  | n (optarg : String)
  | s
  | p (optarg : String)
  | m
  | unknown (optopt : String)
deriving DecidableEq, Repr

/-- Diagnostics emitted through `g.error` / `g.log` / `console.log`, with the
values interpolated into each format string as payload. -/
inductive Diag
  | warnIgnoringConfig (path : String)
  | invalidUsageNear (optopt cmd : String)
  | invalidUsageExtra (cmd : String)
  | listenNotSpecified (cmd : String)
  | migrationFailed (cmd : String) (pid : Nat) (errMessage : String)
  | sqliteConflict (cmd : String) (pid : Nat) (dbPath : String)
  | logListening (cmd : String) (pid : Nat) (versionPm versionApi : String)
      (port : JsVal)
  | logBaseFolder (cmd : String) (pid : Nat) (baseDir : String)
  | logAppPorts (cmd : String) (pid : Nat) (basePort : JsVal)
deriving DecidableEq, Repr

/-- The options record passed to `new Server({...})` at lines 144-152. -/
structure ServerOptions where
  /-- `Driver:` (line 146). -/
  driverImpl : DriverVal
  /-- `baseDir:` (line 147). -/
  baseDir : String
  /-- `basePort:` (line 148). -/
  basePort : JsVal
  /-- `cmdName:` (line 149). -/
  cmdName : String
  /-- `listenPort:` (line 150). -/
  listenPort : JsVal
  /-- `dbDriver:` (line 151). -/
  dbDriver : String
deriving DecidableEq, Repr

/-- Observable actions of the script, in program order. -/
inductive Ev
  | printVersion
  | printHelp
  | diag (d : Diag)
  | setEnvSkipInstall
  | mkdirp (path : String)
  | chdir (path : String)
  | statCall (path : String)
  | migrate (baseDir legacyPath : String) (dryRun : Bool)
  | newServer (opts : ServerOptions)
  | serverStart
deriving DecidableEq, Repr

/-- Process outcome: terminated with an exit status, or still running with the
event loop alive. -/
inductive Outcome
  | exit (code : Nat)
  | running
deriving DecidableEq, Repr

/-- Result of the option-parsing `while` loop. -/
inductive LoopRes
  | exited (code : Nat)
  | done (st : St)
deriving DecidableEq, Repr

/-- The `while ((option = parser.getopt()) !== undefined)` loop of lines
63-102, one token per iteration. `-v` prints the version and exits 0; `-h`
prints help and exits 0; `-b` sets `base`; `-c` warns and is ignored; `-d`
looks the lower-cased argument up in `DRIVERS`; `-l` sets `listen` (option
arguments are strings); `-N` is ignored; `-s` sets the skip-install
environment marker; `-P` sets `basePort` (a string); `-M` sets `dbDriver` to
`"memory"`; anything else reaches the `default` case, which names the
offending option and exits 1. -/
def parseLoop (cmd : String) (st : St) : List OptTok → List Ev × LoopRes
  | [] => ([], .done st)
  | t :: ts =>
    match t with
    | .v => ([.printVersion], .exited 0)
    | .h => ([.printHelp], .exited 0)
    | .b a => parseLoop cmd { st with base := a } ts
    | .c a =>
      let r := parseLoop cmd st ts
      (.diag (.warnIgnoringConfig a) :: r.1, r.2)
    | .d a => parseLoop cmd { st with driver := driverOfArg a } ts
    | .l a => parseLoop cmd { st with listen := .str a } ts
    | .n _ => parseLoop cmd st ts
    | .s =>
      let r := parseLoop cmd st ts
      (.setEnvSkipInstall :: r.1, r.2)
    | .p a => parseLoop cmd { st with basePort := .str a } ts
    | .m => parseLoop cmd { st with dbDriver := "memory" } ts
    | .unknown o => ([.diag (.invalidUsageNear o cmd)], .exited 1)

/-- The `listening` handler of lines 154-166: three `g.log` diagnostics in
fixed order (identity/version/port, base folder, application-port
convention). -/
def onListening (cmd : String) (pid : Nat) (versionPm versionApi : String)
    (baseDir : String) (basePort : JsVal) (port : JsVal) : List Diag :=
  [.logListening cmd pid versionPm versionApi port,
   .logBaseFolder cmd pid baseDir,
   .logAppPorts cmd pid basePort]

/-- The `Server` event names that `startPm` registers a handler for
(the single `app.on('listening', ...)` at line 154). -/
def registeredServerEvents : List String :=
  ["listening"]

/-- `startPm` (lines 143-180): construct the `Server` with the resolved
options, register the `listening` handler, and call `app.start()`.
`listenEv = some port` means the Server later emits its one `listening`
notification with that bound port; the handler then runs. `stopWhenDone`
(line 179) has an empty body and contributes nothing observable. -/
def startPm (env : Env) (cmd : String) (st : St) (baseDir : String)
    (listenEv : Option JsVal) : List Ev × Outcome :=
  let opts : ServerOptions :=
    { driverImpl := st.driver
      baseDir := baseDir
      basePort := st.basePort
      cmdName := cmd
      listenPort := st.listen
      dbDriver := st.dbDriver }
  let logs : List Ev :=
    match listenEv with
    | none => []
    | some port =>
      (onListening cmd env.pid env.versionPm env.versionApi baseDir
        st.basePort port).map Ev.diag
  ([.newServer opts, .serverStart] ++ logs, .running)

/-- The legacy JSON data-file location of lines 210-211:
`process.env.STRONGLOOP_MESH_DB || path.join(baseDir, 'strong-pm.json')`. -/
def memoryDbLocation (env : Env) (baseDir : String) : String :=
  env.meshDbEnv.getD (pathJoin baseDir "strong-pm.json")

/-- The code from line 104 to the end of the top level: resolve `base`, check
for extra arguments (line 106) and a null listen port (line 111), `mkdirp` and
`chdir` into the base directory (lines 117-118), then the backend gate of
lines 120-141 — for the sqlite3 backend, `checkAndUpgradeDb` (lines 209-216)
probes the legacy JSON file and runs `upgradeDb(baseDir, legacyPath, false)`
when it exists, exiting 1 with a pid-and-message diagnostic on migration
failure (lines 122-125); for the JSON-file backend, a probe of
`<base>/strong-mesh.db` finding the file aborts with a conflict diagnostic and
exit 1 (lines 130-138). Otherwise `startPm` runs. -/
def postParse (env : Env) (cmd : String) (st : St) (extraArgs : Bool)
    (fsFiles : List String) (migResult : Option String)
    (listenEv : Option JsVal) : List Ev × Outcome :=
  let base := pathResolve env.cwd st.base
  if extraArgs then
    ([.diag (.invalidUsageExtra cmd)], .exit 1)
  else if jsIsNullish st.listen then
    ([.diag (.listenNotSpecified cmd)], .exit 1)
  else
    let pre : List Ev := [.mkdirp base, .chdir base]
    if st.dbDriver = "sqlite3" then
      let legacy := memoryDbLocation env base
      if fsFiles.contains legacy then
        match migResult with
        | some msg =>
          (pre ++ [.statCall legacy, .migrate base legacy false,
            .diag (.migrationFailed cmd env.pid msg)], .exit 1)
        | none =>
          let r := startPm env cmd st base listenEv
          (pre ++ [.statCall legacy, .migrate base legacy false] ++ r.1, r.2)
      else
        let r := startPm env cmd st base listenEv
        (pre ++ [.statCall legacy] ++ r.1, r.2)
    else
      let sqliteDbPath := pathJoin base "strong-mesh.db"
      if fsFiles.contains sqliteDbPath then
        (pre ++ [.statCall sqliteDbPath,
          .diag (.sqliteConflict cmd env.pid sqliteDbPath)], .exit 1)
      else
        let r := startPm env cmd st base listenEv
        (pre ++ [.statCall sqliteDbPath] ++ r.1, r.2)

/-- The whole script run: parse the options (lines 63-102), then, if the loop
did not exit the process, continue with `postParse`. -/
def runMain (env : Env) (fsFiles : List String) (toks : List OptTok)
    (extraArgs : Bool) (migResult : Option String)
    (listenEv : Option JsVal) : List Ev × Outcome :=
  let cmd := cmdName env
  match parseLoop cmd (initSt env) toks with
  | (tr, .exited c) => (tr, .exit c)
  | (tr, .done st) =>
    let r := postParse env cmd st extraArgs fsFiles migResult listenEv
    (tr ++ r.1, r.2)

/-- Whether an event is a migration invocation. -/
def isMigrateEv : Ev → Bool
  | .migrate _ _ _ => true
  | _ => false

/-- Whether an event is filesystem work (`mkdirp`, `chdir`, `fs.stat`) or
driver/server work (migration, server construction or start). -/
def isFsOrDriverEv : Ev → Bool
  | .mkdirp _ => true
  | .chdir _ => true
  | .statCall _ => true
  | .migrate _ _ _ => true
  | .newServer _ => true
  | .serverStart => true
  | _ => false

/-- States of the parent-liveness monitor: `armed` iff the parent established
an IPC control channel to this process. -/
inductive ChannelState
  | unarmed
  | armed
deriving DecidableEq, Repr

/-- Modelled from the spec: Node delivers a `disconnect` event only on a
process whose parent established an IPC channel (the comment at lines 6-9:
with no channel, "the disconnect event will never occur"). -/
def disconnectFires : ChannelState → Bool
  | .armed => true
  | .unarmed => false

/-- The `process.on('disconnect')` monitor of lines 10-12: when the event
fires it calls `process.exit(2)` unconditionally, ignoring whatever work is in
flight; when it cannot fire, nothing happens. -/
def monitorReaction (cs : ChannelState) (_inflight : List Ev) : Option Outcome :=
  if disconnectFires cs then some (.exit 2) else none

/-- The trace of a whole run. -/
def mainTrace (env : Env) (fsFiles : List String) (toks : List OptTok)
    (extraArgs : Bool) (migResult : Option String)
    (listenEv : Option JsVal) : List Ev :=
  (runMain env fsFiles toks extraArgs migResult listenEv).1

/-- The outcome of a whole run. -/
def mainOutcome (env : Env) (fsFiles : List String) (toks : List OptTok)
    (extraArgs : Bool) (migResult : Option String)
    (listenEv : Option JsVal) : Outcome :=
  (runMain env fsFiles toks extraArgs migResult listenEv).2

/-- The resolved base directory (line 104) for a post-parse state. -/
def resolvedBase (env : Env) (st : St) : String :=
  pathResolve env.cwd st.base

/-- The resolved legacy JSON data-file path (lines 210-211) for a post-parse
state. -/
def legacyPathOf (env : Env) (st : St) : String :=
  memoryDbLocation env (resolvedBase env st)

/-- The primary-backend database path `<base>/strong-mesh.db` (line 129) for a
post-parse state. -/
def meshDbPathOf (env : Env) (st : St) : String :=
  pathJoin (resolvedBase env st) "strong-mesh.db"

/-- A concrete environment: no `CMD`, `STRONGLOOP_BASEPORT` or
`STRONGLOOP_MESH_DB` overrides, invoked as `sl-pm` from `/`. -/
def envW : Env :=
  { cmdEnv := none, argv1Base := "sl-pm", homeDir := "/root/.strong-pm",
    basePortEnv := none, meshDbEnv := none, cwd := "/", pid := 42,
    versionPm := "5.0.0", versionApi := "1.0.0" }

lemma isMigrateEv_imp_fsdriver (e : Ev) (h : isMigrateEv e = true) :
    isFsOrDriverEv e = true := by
  cases e <;> simp_all [isMigrateEv, isFsOrDriverEv]

lemma newServer_fsdriver (opts : ServerOptions) :
    isFsOrDriverEv (Ev.newServer opts) = true := rfl

lemma parseLoop_pure :
    ∀ (toks : List OptTok) (cmd : String) (st : St) (e : Ev),
      e ∈ (parseLoop cmd st toks).1 → isFsOrDriverEv e = false := by
  intro toks
  induction toks with
  | nil => intro cmd st e he; simp [parseLoop] at he
  | cons t ts ih =>
    intro cmd st e he
    cases t with
    | v => simp [parseLoop] at he; subst he; rfl
    | h => simp [parseLoop] at he; subst he; rfl
    | b a => exact ih cmd _ e (by simpa [parseLoop] using he)
    | c a =>
      simp [parseLoop] at he
      rcases he with rfl | he
      · rfl
      · exact ih cmd _ e he
    | d a => exact ih cmd _ e (by simpa [parseLoop] using he)
    | l a => exact ih cmd _ e (by simpa [parseLoop] using he)
    | n a => exact ih cmd _ e (by simpa [parseLoop] using he)
    | s =>
      simp [parseLoop] at he
      rcases he with rfl | he
      · rfl
      · exact ih cmd _ e he
    | p a => exact ih cmd _ e (by simpa [parseLoop] using he)
    | m => exact ih cmd _ e (by simpa [parseLoop] using he)
    | unknown o => simp [parseLoop] at he; subst he; rfl

lemma parseLoop_countP_migrate_zero (toks : List OptTok) (cmd : String)
    (st : St) : (parseLoop cmd st toks).1.countP isMigrateEv = 0 := by
  rw [List.countP_eq_zero]
  intro e he hmig
  have h1 := parseLoop_pure toks cmd st e he
  have h2 := isMigrateEv_imp_fsdriver e hmig
  rw [h1] at h2
  exact Bool.false_ne_true h2

lemma parseLoop_listen_not_null :
    ∀ (toks : List OptTok) (cmd : String) (st : St) (st' : St),
      jsIsNullish st.listen = false →
      (parseLoop cmd st toks).2 = .done st' →
      jsIsNullish st'.listen = false := by
  intro toks
  induction toks with
  | nil =>
    intro cmd st st' h0 hp
    simp [parseLoop] at hp
    rw [← hp]
    exact h0
  | cons t ts ih =>
    intro cmd st st' h0 hp
    cases t with
    | v => simp [parseLoop] at hp
    | h => simp [parseLoop] at hp
    | b a =>
      exact ih cmd { st with base := a } st' h0 (by simpa [parseLoop] using hp)
    | c a => exact ih cmd st st' h0 (by simpa [parseLoop] using hp)
    | d a =>
      exact ih cmd { st with driver := driverOfArg a } st' h0
        (by simpa [parseLoop] using hp)
    | l a =>
      exact ih cmd { st with listen := .str a } st' rfl
        (by simpa [parseLoop] using hp)
    | n a => exact ih cmd st st' h0 (by simpa [parseLoop] using hp)
    | s => exact ih cmd st st' h0 (by simpa [parseLoop] using hp)
    | p a =>
      exact ih cmd { st with basePort := .str a } st' h0
        (by simpa [parseLoop] using hp)
    | m =>
      exact ih cmd { st with dbDriver := "memory" } st' h0
        (by simpa [parseLoop] using hp)
    | unknown o => simp [parseLoop] at hp

lemma parseLoop_listen_default :
    ∀ (toks : List OptTok) (cmd : String) (st : St) (st' : St),
      (∀ a, OptTok.l a ∉ toks) →
      (parseLoop cmd st toks).2 = .done st' →
      st'.listen = st.listen := by
  intro toks
  induction toks with
  | nil =>
    intro cmd st st' _ hp
    simp [parseLoop] at hp
    rw [← hp]
  | cons t ts ih =>
    intro cmd st st' hnl hp
    have hnl' : ∀ a, OptTok.l a ∉ ts := by
      intro a ha
      exact hnl a (List.mem_cons_of_mem t ha)
    cases t with
    | v => simp [parseLoop] at hp
    | h => simp [parseLoop] at hp
    | b a =>
      exact ih cmd { st with base := a } st' hnl' (by simpa [parseLoop] using hp)
    | c a => exact ih cmd st st' hnl' (by simpa [parseLoop] using hp)
    | d a =>
      exact ih cmd { st with driver := driverOfArg a } st' hnl'
        (by simpa [parseLoop] using hp)
    | l a => exact absurd (List.mem_cons_self _ _) (hnl a)
    | n a => exact ih cmd st st' hnl' (by simpa [parseLoop] using hp)
    | s => exact ih cmd st st' hnl' (by simpa [parseLoop] using hp)
    | p a =>
      exact ih cmd { st with basePort := .str a } st' hnl'
        (by simpa [parseLoop] using hp)
    | m =>
      exact ih cmd { st with dbDriver := "memory" } st' hnl'
        (by simpa [parseLoop] using hp)
    | unknown o => simp [parseLoop] at hp

lemma parseLoop_exit1_diag :
    ∀ (toks : List OptTok) (cmd : String) (st : St),
      (parseLoop cmd st toks).2 = .exited 1 →
      ∃ o, Ev.diag (Diag.invalidUsageNear o cmd) ∈ (parseLoop cmd st toks).1 := by
  intro toks
  induction toks with
  | nil => intro cmd st hp; simp [parseLoop] at hp
  | cons t ts ih =>
    intro cmd st hp
    cases t with
    | v => simp [parseLoop] at hp
    | h => simp [parseLoop] at hp
    | b a =>
      obtain ⟨o, ho⟩ := ih cmd { st with base := a } (by simpa [parseLoop] using hp)
      exact ⟨o, by simpa [parseLoop] using ho⟩
    | c a =>
      obtain ⟨o, ho⟩ := ih cmd st (by simpa [parseLoop] using hp)
      refine ⟨o, ?_⟩
      simp only [parseLoop]
      exact List.mem_cons_of_mem _ ho
    | d a =>
      obtain ⟨o, ho⟩ := ih cmd { st with driver := driverOfArg a }
        (by simpa [parseLoop] using hp)
      exact ⟨o, by simpa [parseLoop] using ho⟩
    | l a =>
      obtain ⟨o, ho⟩ := ih cmd { st with listen := .str a }
        (by simpa [parseLoop] using hp)
      exact ⟨o, by simpa [parseLoop] using ho⟩
    | n a =>
      obtain ⟨o, ho⟩ := ih cmd st (by simpa [parseLoop] using hp)
      exact ⟨o, by simpa [parseLoop] using ho⟩
    | s =>
      obtain ⟨o, ho⟩ := ih cmd st (by simpa [parseLoop] using hp)
      refine ⟨o, ?_⟩
      simp only [parseLoop]
      exact List.mem_cons_of_mem _ ho
    | p a =>
      obtain ⟨o, ho⟩ := ih cmd { st with basePort := .str a }
        (by simpa [parseLoop] using hp)
      exact ⟨o, by simpa [parseLoop] using ho⟩
    | m =>
      obtain ⟨o, ho⟩ := ih cmd { st with dbDriver := "memory" }
        (by simpa [parseLoop] using hp)
      exact ⟨o, by simpa [parseLoop] using ho⟩
    | unknown o => exact ⟨o, by simp [parseLoop]⟩

lemma parseLoop_no_migrate (toks : List OptTok) (cmd : String) (st : St) :
    ∀ b l d, Ev.migrate b l d ∉ (parseLoop cmd st toks).1 := by
  intro b l d hm
  have h1 := parseLoop_pure toks cmd st _ hm
  simp [isFsOrDriverEv] at h1

lemma parseLoop_no_newServer (toks : List OptTok) (cmd : String) (st : St) :
    ∀ opts, Ev.newServer opts ∉ (parseLoop cmd st toks).1 := by
  intro opts hm
  have h1 := parseLoop_pure toks cmd st _ hm
  simp [isFsOrDriverEv] at h1

lemma startPm_snd (env : Env) (cmd : String) (st : St) (baseDir : String)
    (la : Option JsVal) : (startPm env cmd st baseDir la).2 = .running := rfl

lemma startPm_mem_newServer (env : Env) (cmd : String) (st : St)
    (baseDir : String) (la : Option JsVal) :
    Ev.newServer
      { driverImpl := st.driver, baseDir := baseDir, basePort := st.basePort,
        cmdName := cmd, listenPort := st.listen, dbDriver := st.dbDriver } ∈
      (startPm env cmd st baseDir la).1 := by
  cases la <;> simp [startPm]

lemma startPm_pure_migrate (env : Env) (cmd : String) (st : St)
    (baseDir : String) (la : Option JsVal) :
    ∀ e ∈ (startPm env cmd st baseDir la).1, isMigrateEv e = false := by
  intro e he
  cases la with
  | none =>
    simp [startPm] at he
    rcases he with rfl | rfl <;> rfl
  | some port =>
    simp [startPm, onListening] at he
    rcases he with rfl | rfl | rfl | rfl | rfl <;> rfl

lemma startPm_countP_migrate (env : Env) (cmd : String) (st : St)
    (baseDir : String) (la : Option JsVal) :
    (startPm env cmd st baseDir la).1.countP isMigrateEv = 0 := by
  rw [List.countP_eq_zero]
  intro e he
  simp [startPm_pure_migrate env cmd st baseDir la e he]

lemma startPm_no_listen_diag (env : Env) (cmd : String) (st : St)
    (baseDir : String) (la : Option JsVal) (c : String) :
    Ev.diag (Diag.listenNotSpecified c) ∉ (startPm env cmd st baseDir la).1 := by
  cases la <;> simp [startPm, onListening]

lemma runMain_done (env : Env) (fsFiles : List String) (toks : List OptTok)
    (extra : Bool) (mig : Option String) (la : Option JsVal) (st : St)
    (hp : (parseLoop (cmdName env) (initSt env) toks).2 = .done st) :
    runMain env fsFiles toks extra mig la =
      ((parseLoop (cmdName env) (initSt env) toks).1 ++
        (postParse env (cmdName env) st extra fsFiles mig la).1,
       (postParse env (cmdName env) st extra fsFiles mig la).2) := by
  have hfull : parseLoop (cmdName env) (initSt env) toks =
      ((parseLoop (cmdName env) (initSt env) toks).1, LoopRes.done st) := by
    rw [← hp]
  simp only [runMain]
  rw [hfull]

lemma runMain_exited (env : Env) (fsFiles : List String) (toks : List OptTok)
    (extra : Bool) (mig : Option String) (la : Option JsVal) (code : Nat)
    (hp : (parseLoop (cmdName env) (initSt env) toks).2 = .exited code) :
    runMain env fsFiles toks extra mig la =
      ((parseLoop (cmdName env) (initSt env) toks).1, .exit code) := by
  have hfull : parseLoop (cmdName env) (initSt env) toks =
      ((parseLoop (cmdName env) (initSt env) toks).1, LoopRes.exited code) := by
    rw [← hp]
  simp only [runMain]
  rw [hfull]

lemma postParse_sqlite_present_ok (env : Env) (cmd : String) (st : St)
    (fsFiles : List String) (la : Option JsVal)
    (hnn : jsIsNullish st.listen = false)
    (hdb : st.dbDriver = "sqlite3")
    (hleg : memoryDbLocation env (pathResolve env.cwd st.base) ∈ fsFiles) :
    postParse env cmd st false fsFiles none la =
      ([Ev.mkdirp (pathResolve env.cwd st.base),
        Ev.chdir (pathResolve env.cwd st.base),
        Ev.statCall (memoryDbLocation env (pathResolve env.cwd st.base)),
        Ev.migrate (pathResolve env.cwd st.base)
          (memoryDbLocation env (pathResolve env.cwd st.base)) false] ++
        (startPm env cmd st (pathResolve env.cwd st.base) la).1,
       .running) := by
  unfold postParse
  simp [hnn, hdb, hleg, startPm_snd]

lemma postParse_sqlite_present_fail (env : Env) (cmd : String) (st : St)
    (fsFiles : List String) (la : Option JsVal) (msg : String)
    (hnn : jsIsNullish st.listen = false)
    (hdb : st.dbDriver = "sqlite3")
    (hleg : memoryDbLocation env (pathResolve env.cwd st.base) ∈ fsFiles) :
    postParse env cmd st false fsFiles (some msg) la =
      ([Ev.mkdirp (pathResolve env.cwd st.base),
        Ev.chdir (pathResolve env.cwd st.base),
        Ev.statCall (memoryDbLocation env (pathResolve env.cwd st.base)),
        Ev.migrate (pathResolve env.cwd st.base)
          (memoryDbLocation env (pathResolve env.cwd st.base)) false,
        Ev.diag (Diag.migrationFailed cmd env.pid msg)],
       .exit 1) := by
  unfold postParse
  simp [hnn, hdb, hleg]

lemma postParse_sqlite_absent (env : Env) (cmd : String) (st : St)
    (fsFiles : List String) (mig : Option String) (la : Option JsVal)
    (hnn : jsIsNullish st.listen = false)
    (hdb : st.dbDriver = "sqlite3")
    (hleg : memoryDbLocation env (pathResolve env.cwd st.base) ∉ fsFiles) :
    postParse env cmd st false fsFiles mig la =
      ([Ev.mkdirp (pathResolve env.cwd st.base),
        Ev.chdir (pathResolve env.cwd st.base),
        Ev.statCall (memoryDbLocation env (pathResolve env.cwd st.base))] ++
        (startPm env cmd st (pathResolve env.cwd st.base) la).1,
       .running) := by
  unfold postParse
  simp [hnn, hdb, hleg, startPm_snd]

lemma postParse_memory_conflict (env : Env) (cmd : String) (st : St)
    (fsFiles : List String) (mig : Option String) (la : Option JsVal)
    (hnn : jsIsNullish st.listen = false)
    (hdb : st.dbDriver = "memory")
    (hdbf : pathJoin (pathResolve env.cwd st.base) "strong-mesh.db" ∈ fsFiles) :
    postParse env cmd st false fsFiles mig la =
      ([Ev.mkdirp (pathResolve env.cwd st.base),
        Ev.chdir (pathResolve env.cwd st.base),
        Ev.statCall (pathJoin (pathResolve env.cwd st.base) "strong-mesh.db"),
        Ev.diag (Diag.sqliteConflict cmd env.pid
          (pathJoin (pathResolve env.cwd st.base) "strong-mesh.db"))],
       .exit 1) := by
  unfold postParse
  simp [hnn, hdb, hdbf]

lemma postParse_no_listen_diag (env : Env) (cmd : String) (st : St)
    (extra : Bool) (fsFiles : List String) (mig : Option String)
    (la : Option JsVal) (hl : jsIsNullish st.listen = false) (c : String) :
    Ev.diag (Diag.listenNotSpecified c) ∉
      (postParse env cmd st extra fsFiles mig la).1 := by
  cases extra with
  | true => simp [postParse]
  | false =>
    by_cases hdb : st.dbDriver = "sqlite3"
    · by_cases hc : memoryDbLocation env (pathResolve env.cwd st.base) ∈ fsFiles
      · cases mig with
        | some msg => simp [postParse, hl, hdb, hc]
        | none => cases la <;> simp [postParse, hl, hdb, hc, startPm, onListening]
      · cases la <;> simp [postParse, hl, hdb, hc, startPm, onListening]
    · by_cases hc : pathJoin (pathResolve env.cwd st.base) "strong-mesh.db" ∈ fsFiles
      · simp [postParse, hl, hdb, hc]
      · cases la <;> simp [postParse, hl, hdb, hc, startPm, onListening]

/-- C1: with the primary (sqlite3) backend selected and the legacy JSON data
file present at its resolved path, the run invokes the migration routine
exactly once, with dryRun = false; the Supervisor bootstrap runs (a `Server`
is constructed and the run keeps running) only when migration succeeds, and
when migration fails the process exits with status 1 after a diagnostic
carrying the process id and the error message, and no `Server` is
constructed. -/
theorem C1_migration_gate (env : Env) (fsFiles : List String)
    (toks : List OptTok) (mig : Option String) (la : Option JsVal) (st : St)
    (hp : (parseLoop (cmdName env) (initSt env) toks).2 = LoopRes.done st)
    (hdb : st.dbDriver = "sqlite3")
    (hleg : legacyPathOf env st ∈ fsFiles) :
    ((mainTrace env fsFiles toks false mig la).countP isMigrateEv = 1 ∧
      Ev.migrate (resolvedBase env st) (legacyPathOf env st) false ∈
        mainTrace env fsFiles toks false mig la) ∧
    (mig = none →
      (∃ opts, Ev.newServer opts ∈ mainTrace env fsFiles toks false mig la) ∧
      mainOutcome env fsFiles toks false mig la = Outcome.running) ∧
    (∀ msg, mig = some msg →
      mainOutcome env fsFiles toks false mig la = Outcome.exit 1 ∧
      Ev.diag (Diag.migrationFailed (cmdName env) env.pid msg) ∈
        mainTrace env fsFiles toks false mig la ∧
      ∀ opts, Ev.newServer opts ∉ mainTrace env fsFiles toks false mig la) := by
  have hnn : jsIsNullish st.listen = false :=
    parseLoop_listen_not_null toks (cmdName env) (initSt env) st rfl hp
  simp only [legacyPathOf, resolvedBase] at hleg
  have hrm := runMain_done env fsFiles toks false mig la st hp
  cases mig with
  | none =>
    have hpp := postParse_sqlite_present_ok env (cmdName env) st fsFiles la
      hnn hdb hleg
    refine ⟨⟨?_, ?_⟩, ?_, ?_⟩
    · simp [mainTrace, hrm, hpp, List.countP_append,
        parseLoop_countP_migrate_zero, startPm_countP_migrate, isMigrateEv]
    · simp only [mainTrace, legacyPathOf, resolvedBase, hrm, hpp]
      simp
    · intro _
      constructor
      · refine ⟨ServerOptions.mk st.driver (pathResolve env.cwd st.base)
          st.basePort (cmdName env) st.listen st.dbDriver, ?_⟩
        simp only [mainTrace, hrm, hpp]
        exact List.mem_append_right _ (List.mem_append_right _
          (startPm_mem_newServer env (cmdName env) st _ la))
      · simp [mainOutcome, hrm, hpp]
    · intro msg hmsg
      exact absurd hmsg (by simp)
  | some msg0 =>
    have hpp := postParse_sqlite_present_fail env (cmdName env) st fsFiles la
      msg0 hnn hdb hleg
    refine ⟨⟨?_, ?_⟩, ?_, ?_⟩
    · simp [mainTrace, hrm, hpp, List.countP_append,
        parseLoop_countP_migrate_zero, isMigrateEv]
    · simp only [mainTrace, legacyPathOf, resolvedBase, hrm, hpp]
      simp
    · intro hmsg
      exact absurd hmsg (by simp)
    · intro msg hmsg
      obtain rfl := Option.some.inj hmsg
      refine ⟨?_, ?_, ?_⟩
      · simp [mainOutcome, hrm, hpp]
      · simp only [mainTrace, hrm, hpp]
        simp
      · intro opts hmem
        simp only [mainTrace, hrm, hpp] at hmem
        rcases List.mem_append.mp hmem with h1 | h2
        · exact parseLoop_no_newServer toks (cmdName env) (initSt env) opts h1
        · simp at h2

/-- C1 witness: invoking with no options, a legacy JSON file present at
`/root/.strong-pm/strong-pm.json`, and a successful migration, runs exactly
one migration and keeps the supervisor running. -/
theorem C1_migration_gate_witness :
    (mainTrace envW ["/root/.strong-pm/strong-pm.json"] [] false none
      none).countP isMigrateEv = 1 ∧
    mainOutcome envW ["/root/.strong-pm/strong-pm.json"] [] false none none =
      Outcome.running :=
  ⟨(C1_migration_gate envW ["/root/.strong-pm/strong-pm.json"] [] none none
      (initSt envW) rfl rfl (by exact List.mem_singleton_self _)).1.1,
   ((C1_migration_gate envW ["/root/.strong-pm/strong-pm.json"] [] none none
      (initSt envW) rfl rfl (by exact List.mem_singleton_self _)).2.1 rfl).2⟩

/-- C2: with the legacy JSON backend selected (`-M`, `dbDriver = "memory"`)
and a primary-backend file present at `<base>/strong-mesh.db`, the run exits
with status 1 after the conflict diagnostic telling the operator to delete
the file, and no `Server` is ever constructed. -/
theorem C2_json_backend_conflict (env : Env) (fsFiles : List String)
    (toks : List OptTok) (mig : Option String) (la : Option JsVal) (st : St)
    (hp : (parseLoop (cmdName env) (initSt env) toks).2 = LoopRes.done st)
    (hdb : st.dbDriver = "memory")
    (hdbf : meshDbPathOf env st ∈ fsFiles) :
    mainOutcome env fsFiles toks false mig la = Outcome.exit 1 ∧
    Ev.diag (Diag.sqliteConflict (cmdName env) env.pid (meshDbPathOf env st)) ∈
      mainTrace env fsFiles toks false mig la ∧
    ∀ opts, Ev.newServer opts ∉ mainTrace env fsFiles toks false mig la := by
  have hnn : jsIsNullish st.listen = false :=
    parseLoop_listen_not_null toks (cmdName env) (initSt env) st rfl hp
  simp only [meshDbPathOf, resolvedBase] at hdbf
  have hrm := runMain_done env fsFiles toks false mig la st hp
  have hpp := postParse_memory_conflict env (cmdName env) st fsFiles mig la
    hnn hdb hdbf
  refine ⟨?_, ?_, ?_⟩
  · simp [mainOutcome, hrm, hpp]
  · simp only [mainTrace, meshDbPathOf, resolvedBase, hrm, hpp]
    simp
  · intro opts hmem
    simp only [mainTrace, hrm, hpp] at hmem
    rcases List.mem_append.mp hmem with h1 | h2
    · exact parseLoop_no_newServer toks (cmdName env) (initSt env) opts h1
    · simp at h2

/-- C2 witness: `-M` with `/root/.strong-pm/strong-mesh.db` present exits
with status 1. -/
theorem C2_json_backend_conflict_witness :
    mainOutcome envW ["/root/.strong-pm/strong-mesh.db"] [OptTok.m] false none
      none = Outcome.exit 1 :=
  (C2_json_backend_conflict envW ["/root/.strong-pm/strong-mesh.db"]
    [OptTok.m] none none { initSt envW with dbDriver := "memory" } rfl rfl
    (by exact List.mem_singleton_self _)).1

/-- C3: whenever the post-parse state carries a null listen port, the code
after the loop exits with status 1 as a usage error before any backend file
probe or migration; with no leftover arguments the sole diagnostic is the
missing-listen-port usage message. -/
theorem C3_null_listen_usage (env : Env) (cmd : String) (st : St)
    (extra : Bool) (fsFiles : List String) (mig : Option String)
    (la : Option JsVal) (hl : jsIsNullish st.listen = true) :
    (postParse env cmd st extra fsFiles mig la).2 = Outcome.exit 1 ∧
    (∀ p, Ev.statCall p ∉ (postParse env cmd st extra fsFiles mig la).1) ∧
    (∀ b l d, Ev.migrate b l d ∉ (postParse env cmd st extra fsFiles mig la).1) ∧
    (extra = false →
      (postParse env cmd st extra fsFiles mig la).1 =
        [Ev.diag (Diag.listenNotSpecified cmd)]) := by
  cases extra <;> simp [postParse, hl]

/-- C3 witness: a state with `listen = null` exits 1 with the
listen-not-specified diagnostic and no probe. -/
theorem C3_null_listen_usage_witness :
    (postParse envW "sl-pm"
      { base := "/root/.strong-pm", listen := JsVal.null,
        driver := DriverVal.impl Driver.direct, basePort := JsVal.num 3000,
        dbDriver := "sqlite3" } false [] none none).2 = Outcome.exit 1 ∧
    (postParse envW "sl-pm"
      { base := "/root/.strong-pm", listen := JsVal.null,
        driver := DriverVal.impl Driver.direct, basePort := JsVal.num 3000,
        dbDriver := "sqlite3" } false [] none none).1 =
      [Ev.diag (Diag.listenNotSpecified "sl-pm")] :=
  ⟨(C3_null_listen_usage envW "sl-pm"
      { base := "/root/.strong-pm", listen := JsVal.null,
        driver := DriverVal.impl Driver.direct, basePort := JsVal.num 3000,
        dbDriver := "sqlite3" } false [] none none rfl).1,
   (C3_null_listen_usage envW "sl-pm"
      { base := "/root/.strong-pm", listen := JsVal.null,
        driver := DriverVal.impl Driver.direct, basePort := JsVal.num 3000,
        dbDriver := "sqlite3" } false [] none none rfl).2.2.2 rfl⟩

/-- C4: once the IPC channel is armed, a disconnect makes the monitor exit
the process with status 2 regardless of in-flight work; unarmed, the monitor
never fires. -/
theorem C4_disconnect_exit :
    (∀ inflight : List Ev,
      monitorReaction ChannelState.armed inflight = some (Outcome.exit 2)) ∧
    (∀ inflight : List Ev,
      monitorReaction ChannelState.unarmed inflight = none) :=
  ⟨fun _ => rfl, fun _ => rfl⟩

/-- C6: driver lookup lower-cases the name first, so every name whose
lower-casing is `docker` resolves to the docker driver, and every name whose
lower-casing is `direct` resolves to the direct driver. -/
theorem C6_driver_case_insensitive :
    (∀ s : String, toLowerCase s = "docker" → driverOfArg s = DriverVal.impl Driver.docker) ∧
    (∀ s : String, toLowerCase s = "direct" → driverOfArg s = DriverVal.impl Driver.direct) := by
  constructor
  · intro s hs
    unfold driverOfArg
    rw [hs]
    decide
  · intro s hs
    unfold driverOfArg
    rw [hs]
    decide

/-- C6 witness: `DOCKER`, `Docker` and `direct` resolve as claimed. -/
theorem C6_driver_case_insensitive_witness :
    driverOfArg "DOCKER" = DriverVal.impl Driver.docker ∧
    driverOfArg "Docker" = DriverVal.impl Driver.docker ∧
    driverOfArg "Direct" = DriverVal.impl Driver.direct :=
  ⟨C6_driver_case_insensitive.1 "DOCKER" (by decide),
   C6_driver_case_insensitive.1 "Docker" (by decide),
   C6_driver_case_insensitive.2 "Direct" (by decide)⟩

/-- C7 counterexample: `--driver Constructor` lower-cases to `constructor`,
which is not a registry key, yet `DRIVERS["constructor"]` is
`Object.prototype.constructor` — a defined value inherited through the
prototype chain, not an absent one — so lookup does not yield an absent value
for every name outside the registry. -/
theorem C7_counterexample :
    toLowerCase "Constructor" ≠ "direct" ∧
    toLowerCase "Constructor" ≠ "docker" ∧
    driverOfArg "Constructor" = DriverVal.protoMember "constructor" ∧
    driverOfArg "Constructor" ≠ DriverVal.undefined := by
  refine ⟨by decide, by decide, by decide, by decide⟩

/-- C7 (amended): a `--driver` name that lower-cases to neither registry key
nor an `Object.prototype` property name yields an absent (`undefined`)
driver from the lookup rather than raising, and that absent driver is passed
straight into the `Server` options with no validation: the run stays
running, the constructed `Server` has an absent driver, and no diagnostic at
all is emitted. -/
theorem C7_absent_driver_passthrough (env : Env) (fsFiles : List String)
    (mig : Option String) (s : String)
    (hs1 : toLowerCase s ≠ "direct") (hs2 : toLowerCase s ≠ "docker")
    (hs3 : isObjectProtoKey (toLowerCase s) = false)
    (habs : memoryDbLocation env (pathResolve env.cwd env.homeDir) ∉ fsFiles) :
    driverOfArg s = DriverVal.undefined ∧
    mainOutcome env fsFiles [OptTok.d s] false mig none = Outcome.running ∧
    Ev.newServer
      { driverImpl := DriverVal.undefined,
        baseDir := pathResolve env.cwd env.homeDir,
        basePort := basePortFromEnv env.basePortEnv,
        cmdName := cmdName env,
        listenPort := JsVal.num 8701,
        dbDriver := "sqlite3" } ∈
      mainTrace env fsFiles [OptTok.d s] false mig none ∧
    ∀ d, Ev.diag d ∉ mainTrace env fsFiles [OptTok.d s] false mig none := by
  have hno : driverOfArg s = DriverVal.undefined := by
    unfold driverOfArg driversLookup
    rw [if_neg hs1, if_neg hs2, hs3]
    rfl
  have hrm := runMain_done env fsFiles [OptTok.d s] false mig none
    { initSt env with driver := driverOfArg s } rfl
  have hpp := postParse_sqlite_absent env (cmdName env)
    { initSt env with driver := driverOfArg s } fsFiles mig none rfl rfl habs
  refine ⟨hno, ?_, ?_, ?_⟩
  · simp [mainOutcome, hrm, hpp]
  · simp only [mainTrace, hrm, hpp]
    refine List.mem_append_right _ (List.mem_append_right _ ?_)
    simp [startPm, initSt, hno]
  · intro d
    simp only [mainTrace, hrm, hpp]
    simp [parseLoop, startPm]

/-- C7 witness: `--driver bogus` on an empty base directory constructs the
`Server` with an absent driver and keeps running. -/
theorem C7_absent_driver_passthrough_witness :
    driverOfArg "bogus" = DriverVal.undefined ∧
    mainOutcome envW [] [OptTok.d "bogus"] false none none =
      Outcome.running :=
  ⟨(C7_absent_driver_passthrough envW [] none "bogus" (by decide) (by decide)
      (by decide) (by simp)).1,
   (C7_absent_driver_passthrough envW [] none "bogus" (by decide) (by decide)
      (by decide) (by simp)).2.1⟩

/-- C8: with the primary backend selected and no legacy JSON file at the
resolved path, the run performs zero migrations and proceeds straight to
bootstrap (a `Server` is constructed and the run keeps running); hence
re-running the gate after a successful migration, when the legacy file is
gone, is a no-op that goes straight to bootstrap. -/
theorem C8_no_legacy_no_migration (env : Env) (fsFiles : List String)
    (toks : List OptTok) (mig : Option String) (la : Option JsVal) (st : St)
    (hp : (parseLoop (cmdName env) (initSt env) toks).2 = LoopRes.done st)
    (hdb : st.dbDriver = "sqlite3")
    (habs : legacyPathOf env st ∉ fsFiles) :
    (mainTrace env fsFiles toks false mig la).countP isMigrateEv = 0 ∧
    (∃ opts, Ev.newServer opts ∈ mainTrace env fsFiles toks false mig la) ∧
    mainOutcome env fsFiles toks false mig la = Outcome.running := by
  have hnn : jsIsNullish st.listen = false :=
    parseLoop_listen_not_null toks (cmdName env) (initSt env) st rfl hp
  simp only [legacyPathOf, resolvedBase] at habs
  have hrm := runMain_done env fsFiles toks false mig la st hp
  have hpp := postParse_sqlite_absent env (cmdName env) st fsFiles mig la
    hnn hdb habs
  refine ⟨?_, ?_, ?_⟩
  · simp [mainTrace, hrm, hpp, List.countP_append,
      parseLoop_countP_migrate_zero, startPm_countP_migrate, isMigrateEv]
  · refine ⟨ServerOptions.mk st.driver (pathResolve env.cwd st.base)
      st.basePort (cmdName env) st.listen st.dbDriver, ?_⟩
    simp only [mainTrace, hrm, hpp]
    exact List.mem_append_right _ (List.mem_append_right _
      (startPm_mem_newServer env (cmdName env) st _ la))
  · simp [mainOutcome, hrm, hpp]

/-- C8 witness: empty base directory, no options: zero migrations and the
run keeps running. -/
theorem C8_no_legacy_no_migration_witness :
    (mainTrace envW [] [] false none none).countP isMigrateEv = 0 ∧
    mainOutcome envW [] [] false none none = Outcome.running :=
  ⟨(C8_no_legacy_no_migration envW [] [] none none (initSt envW) rfl rfl
      (by decide)).1,
   (C8_no_legacy_no_migration envW [] [] none none (initSt envW) rfl rfl
      (by decide)).2.2⟩

/-- C9: when the Server emits its single `listening` notification, the
bootstrapper appends exactly three diagnostics in fixed order — identity with
version and bound port, base directory, and the basePort-plus-service-id
convention — and `listening` is the only Server event a handler is registered
for. -/
theorem C9_listening_diags (env : Env) (fsFiles : List String)
    (toks : List OptTok) (mig : Option String) (st : St) (port : JsVal)
    (hp : (parseLoop (cmdName env) (initSt env) toks).2 = LoopRes.done st)
    (hdb : st.dbDriver = "sqlite3")
    (habs : legacyPathOf env st ∉ fsFiles) :
    (∃ T0, mainTrace env fsFiles toks false mig (some port) =
      T0 ++ [Ev.serverStart,
        Ev.diag (Diag.logListening (cmdName env) env.pid env.versionPm
          env.versionApi port),
        Ev.diag (Diag.logBaseFolder (cmdName env) env.pid
          (resolvedBase env st)),
        Ev.diag (Diag.logAppPorts (cmdName env) env.pid st.basePort)]) ∧
    registeredServerEvents = ["listening"] := by
  have hnn : jsIsNullish st.listen = false :=
    parseLoop_listen_not_null toks (cmdName env) (initSt env) st rfl hp
  simp only [legacyPathOf, resolvedBase] at habs
  have hrm := runMain_done env fsFiles toks false mig (some port) st hp
  have hpp := postParse_sqlite_absent env (cmdName env) st fsFiles mig
    (some port) hnn hdb habs
  refine ⟨⟨(parseLoop (cmdName env) (initSt env) toks).1 ++
    [Ev.mkdirp (resolvedBase env st), Ev.chdir (resolvedBase env st),
     Ev.statCall (legacyPathOf env st),
     Ev.newServer
       { driverImpl := st.driver, baseDir := resolvedBase env st,
         basePort := st.basePort, cmdName := cmdName env,
         listenPort := st.listen, dbDriver := st.dbDriver }], ?_⟩, rfl⟩
  simp only [mainTrace, hrm, hpp, legacyPathOf, resolvedBase, startPm,
    onListening]
  simp

/-- C9 witness: the default run with the `listening` event at port 8701 ends
with the three diagnostics in order. -/
theorem C9_listening_diags_witness :
    (∃ T0, mainTrace envW [] [] false none (some (JsVal.num 8701)) =
      T0 ++ [Ev.serverStart,
        Ev.diag (Diag.logListening (cmdName envW) envW.pid envW.versionPm
          envW.versionApi (JsVal.num 8701)),
        Ev.diag (Diag.logBaseFolder (cmdName envW) envW.pid
          (resolvedBase envW (initSt envW))),
        Ev.diag (Diag.logAppPorts (cmdName envW) envW.pid
          (initSt envW).basePort)]) ∧
    registeredServerEvents = ["listening"] :=
  C9_listening_diags envW [] [] none (initSt envW) (JsVal.num 8701) rfl rfl
    (by simp)

/-- C10: an argument vector that never supplies `--listen`/`-l` leaves the
listen port at its initial value 8701; every completed parse leaves a
non-null listen port; and the post-parse missing-listen-port usage branch
emits its diagnostic only from a null listen port — so that branch is
unreachable from any parsed configuration. -/
theorem C10_listen_branch_unreachable :
    (∀ (env : Env) (toks : List OptTok) (st : St),
      (∀ a, OptTok.l a ∉ toks) →
      (parseLoop (cmdName env) (initSt env) toks).2 = LoopRes.done st →
      st.listen = JsVal.num 8701) ∧
    (∀ (env : Env) (toks : List OptTok) (st : St),
      (parseLoop (cmdName env) (initSt env) toks).2 = LoopRes.done st →
      jsIsNullish st.listen = false) ∧
    (∀ (env : Env) (cmd : String) (st : St) (fsFiles : List String)
       (mig : Option String) (la : Option JsVal) (c : String),
      Ev.diag (Diag.listenNotSpecified c) ∈
        (postParse env cmd st false fsFiles mig la).1 →
      jsIsNullish st.listen = true) := by
  refine ⟨?_, ?_, ?_⟩
  · intro env toks st hnl hp
    exact parseLoop_listen_default toks (cmdName env) (initSt env) st hnl hp
  · intro env toks st hp
    exact parseLoop_listen_not_null toks (cmdName env) (initSt env) st rfl hp
  · intro env cmd st fsFiles mig la c hmem
    by_contra hn
    rw [Bool.not_eq_true] at hn
    exact postParse_no_listen_diag env cmd st false fsFiles mig la hn c hmem

/-- C10 witness: the empty argument vector keeps listen = 8701 and non-null,
and a null-listen state does reach the diagnostic branch. -/
theorem C10_listen_branch_unreachable_witness :
    (initSt envW).listen = JsVal.num 8701 ∧
    jsIsNullish (initSt envW).listen = false ∧
    jsIsNullish
      ({ base := "/root/.strong-pm", listen := JsVal.null,
         driver := DriverVal.impl Driver.direct, basePort := JsVal.num 3000,
         dbDriver := "sqlite3" } : St).listen = true :=
  ⟨C10_listen_branch_unreachable.1 envW [] (initSt envW) (by simp) rfl,
   C10_listen_branch_unreachable.2.1 envW [] (initSt envW) rfl,
   C10_listen_branch_unreachable.2.2 envW "sl-pm"
     { base := "/root/.strong-pm", listen := JsVal.null,
       driver := DriverVal.impl Driver.direct, basePort := JsVal.num 3000,
       dbDriver := "sqlite3" } [] none none "sl-pm" (by decide)⟩

/-- C5 counterexample: the argument vector `-v -Z` contains the unrecognized
option `-Z`, yet the process exits with status 0 (the version flag exits
first), not 1 — refuting the claim for every vector containing an
unrecognized option. -/
theorem C5_counterexample :
    (runMain envW [] [OptTok.v, OptTok.unknown "Z"] false none none).2 =
      Outcome.exit 0 ∧ Outcome.exit 0 ≠ Outcome.exit 1 := by
  constructor
  · rfl
  · decide

/-- C5 (amended): whenever the option loop itself terminates the process with
status 1 — which is exactly the unrecognized-option case — the run exits 1
with a diagnostic naming the offending option and performs no filesystem or
driver work; and whenever parsing completes but positional arguments are left
over, the run exits 1 with the extra-arguments diagnostic and performs no
filesystem or driver work. -/
theorem C5_usage_errors :
    (∀ (env : Env) (fsFiles : List String) (toks : List OptTok) (extra : Bool)
       (mig : Option String) (la : Option JsVal),
      (parseLoop (cmdName env) (initSt env) toks).2 = LoopRes.exited 1 →
      mainOutcome env fsFiles toks extra mig la = Outcome.exit 1 ∧
      (∃ o, Ev.diag (Diag.invalidUsageNear o (cmdName env)) ∈
        mainTrace env fsFiles toks extra mig la) ∧
      (∀ e ∈ mainTrace env fsFiles toks extra mig la,
        isFsOrDriverEv e = false)) ∧
    (∀ (env : Env) (fsFiles : List String) (toks : List OptTok)
       (mig : Option String) (la : Option JsVal) (st : St),
      (parseLoop (cmdName env) (initSt env) toks).2 = LoopRes.done st →
      mainOutcome env fsFiles toks true mig la = Outcome.exit 1 ∧
      Ev.diag (Diag.invalidUsageExtra (cmdName env)) ∈
        mainTrace env fsFiles toks true mig la ∧
      (∀ e ∈ mainTrace env fsFiles toks true mig la,
        isFsOrDriverEv e = false)) := by
  constructor
  · intro env fsFiles toks extra mig la hp
    have hrm := runMain_exited env fsFiles toks extra mig la 1 hp
    refine ⟨?_, ?_, ?_⟩
    · simp [mainOutcome, hrm]
    · obtain ⟨o, ho⟩ := parseLoop_exit1_diag toks (cmdName env) (initSt env) hp
      exact ⟨o, by simpa [mainTrace, hrm] using ho⟩
    · intro e he
      simp only [mainTrace, hrm] at he
      exact parseLoop_pure toks (cmdName env) (initSt env) e he
  · intro env fsFiles toks mig la st hp
    have hrm := runMain_done env fsFiles toks true mig la st hp
    have hpp : postParse env (cmdName env) st true fsFiles mig la =
        ([Ev.diag (Diag.invalidUsageExtra (cmdName env))], Outcome.exit 1) := by
      simp [postParse]
    refine ⟨?_, ?_, ?_⟩
    · simp [mainOutcome, hrm, hpp]
    · simp only [mainTrace, hrm, hpp]
      simp
    · intro e he
      simp only [mainTrace, hrm, hpp] at he
      rcases List.mem_append.mp he with h1 | h2
      · exact parseLoop_pure toks (cmdName env) (initSt env) e h1
      · simp at h2
        subst h2
        rfl

/-- C5 witness: an unrecognized option alone exits 1, and leftover positional
arguments after a completed parse exit 1. -/
theorem C5_usage_errors_witness :
    mainOutcome envW [] [OptTok.unknown "Z"] false none none =
      Outcome.exit 1 ∧
    mainOutcome envW [] [] true none none = Outcome.exit 1 :=
  ⟨(C5_usage_errors.1 envW [] [OptTok.unknown "Z"] false none none rfl).1,
   (C5_usage_errors.2 envW [] [] none none (initSt envW) rfl).1⟩

end StrongPm
